import Mathlib

/-!
Verification of the pisama-claude-code trace pipeline.

This file embeds, in Lean, the parts of the repository that the checked
properties are about:

* `trace_converter.py` — `TraceConverter.to_span`, `_normalize_input`,
  `_normalize_output`, `_get_span_kind`, `reset_session`;
* `storage.py` — `TraceStorage.store`, `_write_jsonl`, `_write_db`,
  `get_recent`, `get_tool_sequence`, `_row_to_span`;
* `guardian.py` — `Guardian.analyze`, `_get_recommendation` and the three
  mode handlers, plus the synchronous hook wrapper;
* `hooks/guardian_hook.py` — `main` exit behaviour and `_fallback_detection`.

Python data is modelled by `JValue` (a JSON-like value type); Python dicts
are association lists with first-match lookup (dict literals in the source
have unique keys, so this is faithful).  Python truthiness is `JValue.truthy`;
`a or b` is `pyOr`; exceptions are `Except String`.  Timestamps are abstract
`Nat` millisecond counts, and the process-random `uuid.uuid4()` is modelled
by a fresh-name supply threaded through the converter state.
-/

/-- JSON-like model of the Python values flowing through the pipeline.
Numbers are modelled as integers; no claim below depends on floats. -/
inductive JValue where
  | null : JValue
  | bool : Bool → JValue
  | num : Int → JValue
  | str : String → JValue
  | arr : List JValue → JValue
  | obj : List (String × JValue) → JValue

mutual

/-- Structural equality test for `JValue` (Python `==` on JSON data). -/
def JValue.beq : JValue → JValue → Bool
  | .null, .null => true
  | .bool a, .bool b => a == b
  | .num a, .num b => a == b
  | .str a, .str b => a == b
  | .arr a, .arr b => beqListJ a b
  | .obj a, .obj b => beqObjJ a b
  | _, _ => false

def beqListJ : List JValue → List JValue → Bool
  | [], [] => true
  | x :: xs, y :: ys => JValue.beq x y && beqListJ xs ys
  | _, _ => false

def beqObjJ : List (String × JValue) → List (String × JValue) → Bool
  | [], [] => true
  | (k, v) :: xs, (l, w) :: ys => k == l && JValue.beq v w && beqObjJ xs ys
  | _, _ => false

end

mutual

theorem JValue.beq_iff : ∀ a b : JValue, JValue.beq a b = true ↔ a = b
  | .null, .null => by simp [JValue.beq]
  | .bool a, .bool b => by simp [JValue.beq]
  | .num a, .num b => by simp [JValue.beq]
  | .str a, .str b => by simp [JValue.beq]
  | .arr a, .arr b => by
      simp only [JValue.beq, beqListJ_iff a b, JValue.arr.injEq]
  | .obj a, .obj b => by
      simp only [JValue.beq, beqObjJ_iff a b, JValue.obj.injEq]
  | .null, .bool _ => by simp [JValue.beq]
  | .null, .num _ => by simp [JValue.beq]
  | .null, .str _ => by simp [JValue.beq]
  | .null, .arr _ => by simp [JValue.beq]
  | .null, .obj _ => by simp [JValue.beq]
  | .bool _, .null => by simp [JValue.beq]
  | .bool _, .num _ => by simp [JValue.beq]
  | .bool _, .str _ => by simp [JValue.beq]
  | .bool _, .arr _ => by simp [JValue.beq]
  | .bool _, .obj _ => by simp [JValue.beq]
  | .num _, .null => by simp [JValue.beq]
  | .num _, .bool _ => by simp [JValue.beq]
  | .num _, .str _ => by simp [JValue.beq]
  | .num _, .arr _ => by simp [JValue.beq]
  | .num _, .obj _ => by simp [JValue.beq]
  | .str _, .null => by simp [JValue.beq]
  | .str _, .bool _ => by simp [JValue.beq]
  | .str _, .num _ => by simp [JValue.beq]
  | .str _, .arr _ => by simp [JValue.beq]
  | .str _, .obj _ => by simp [JValue.beq]
  | .arr _, .null => by simp [JValue.beq]
  | .arr _, .bool _ => by simp [JValue.beq]
  | .arr _, .num _ => by simp [JValue.beq]
  | .arr _, .str _ => by simp [JValue.beq]
  | .arr _, .obj _ => by simp [JValue.beq]
  | .obj _, .null => by simp [JValue.beq]
  | .obj _, .bool _ => by simp [JValue.beq]
  | .obj _, .num _ => by simp [JValue.beq]
  | .obj _, .str _ => by simp [JValue.beq]
  | .obj _, .arr _ => by simp [JValue.beq]

theorem beqListJ_iff : ∀ a b : List JValue, beqListJ a b = true ↔ a = b
  | [], [] => by simp [beqListJ]
  | [], _ :: _ => by simp [beqListJ]
  | _ :: _, [] => by simp [beqListJ]
  | x :: xs, y :: ys => by
      simp only [beqListJ, Bool.and_eq_true, JValue.beq_iff x y, beqListJ_iff xs ys,
        List.cons.injEq]

theorem beqObjJ_iff : ∀ a b : List (String × JValue), beqObjJ a b = true ↔ a = b
  | [], [] => by simp [beqObjJ]
  | [], _ :: _ => by simp [beqObjJ]
  | _ :: _, [] => by simp [beqObjJ]
  | (k, v) :: xs, (l, w) :: ys => by
      simp only [beqObjJ, Bool.and_eq_true, JValue.beq_iff v w, beqObjJ_iff xs ys,
        List.cons.injEq, Prod.mk.injEq, beq_iff_eq]

end

instance : DecidableEq JValue := fun a b =>
  decidable_of_iff (JValue.beq a b = true) (JValue.beq_iff a b)

/-- A Python dict of JSON data: an association list with first-match lookup
(dict literals in the source have unique keys). -/
abbrev Dict := List (String × JValue)

/-- `d.get(key)` — first-match lookup, `none` when the key is absent. -/
def dget : Dict → String → Option JValue
  | [], _ => none
  | (k, v) :: t, key => if k = key then some v else dget t key

/-- `d.get(key, default)`. -/
def dgetD (d : Dict) (key : String) (default : JValue) : JValue :=
  (dget d key).getD default

/-- Python truthiness of a JSON value (`bool(v)`). -/
def JValue.truthy : JValue → Bool
  | .null => false
  | .bool b => b
  | .num n => n ≠ 0
  | .str s => s ≠ ""
  | .arr xs => ¬xs.isEmpty
  | .obj kvs => ¬kvs.isEmpty

/-- Truthiness of an optional value (`bool(d.get(k))`: absent keys give
`None`, which is falsy). -/
def truthyOpt : Option JValue → Bool
  | some v => v.truthy
  | none => false

/-- Python `a or b` where `a` is an optional lookup result and the fallback
`b` is a value: the lookup result if present and truthy, else `b`. -/
def pyOr (a : Option JValue) (b : JValue) : JValue :=
  match a with
  | some v => if v.truthy then v else b
  | none => b

/-- Python `a or b` where both sides are optional lookup results. -/
def pyOrOpt (a b : Option JValue) : Option JValue :=
  match a with
  | some v => if v.truthy then some v else b
  | none => b

/-- Model of Python `str(x)` as used by `_normalize_input`/`_normalize_output`
on non-dict, non-str, non-None values.  Scalars follow Python exactly; the
rendering of nested containers is abbreviated (no claim below depends on the
exact text produced for a list or dict). -/
def JValue.pyStr : JValue → String
  | .null => "None"
  | .bool true => "True"
  | .bool false => "False"
  | .num n => toString n
  | .str s => s
  | .arr _ => "[...]"
  | .obj _ => "\x7b...\x7d"

/-! ## Span model (`pisama_core.traces`)

`Span`, `SpanKind`, `SpanStatus` and `Platform` come from `pisama_core`,
which is not part of this repository; their shape is reconstructed from how
`trace_converter.py` and `storage.py` build and consume them, and from the
spec's data model (kind ∈ {TOOL, AGENT, USER_INPUT},
status ∈ {IN_PROGRESS, OK, ERROR}). -/

inductive SpanKind where
  | TOOL : SpanKind
  | AGENT : SpanKind
  | USER_INPUT : SpanKind
  deriving DecidableEq

inductive SpanStatus where
  | IN_PROGRESS : SpanStatus
  | OK : SpanStatus
  | ERROR : SpanStatus
  deriving DecidableEq

inductive Platform where
  | CLAUDE_CODE : Platform
  deriving DecidableEq

/-- Modelled from the spec: the `.value` strings of the `pisama_core`
`SpanKind` enum (the enum class itself is not under src/; the member set is
the spec's kind ∈ {TOOL, AGENT, USER_INPUT}). -/
def SpanKind.value : SpanKind → String
  | .TOOL => "tool"
  | .AGENT => "agent"
  | .USER_INPUT => "user_input"

/-- Modelled from the spec: the `.value` strings of the `pisama_core`
`SpanStatus` enum. -/
def SpanStatus.value : SpanStatus → String
  | .IN_PROGRESS => "in_progress"
  | .OK => "ok"
  | .ERROR => "error"

/-- `SpanKind(s)`: succeeds exactly on the enum value strings; a `none`
result models the `ValueError` raised for any other string. -/
def spanKindOfValue (s : String) : Option SpanKind :=
  if s = "tool" then some .TOOL
  else if s = "agent" then some .AGENT
  else if s = "user_input" then some .USER_INPUT
  else none

/-- `SpanStatus(s)`: succeeds exactly on the enum value strings. -/
def spanStatusOfValue (s : String) : Option SpanStatus :=
  if s = "in_progress" then some .IN_PROGRESS
  else if s = "ok" then some .OK
  else if s = "error" then some .ERROR
  else none

/-- The universal span record produced by the converter.  Timestamps are
abstract `Nat` instants; `events` is always the empty list in this adapter
and is omitted.  `output_data` is `none` when the Python field is `None`. -/
structure Span where
  span_id : String
  parent_id : Option String
  trace_id : String
  name : JValue
  kind : SpanKind
  platform : Platform
  start_time : Nat
  end_time : Option Nat
  status : SpanStatus
  attributes : Dict
  input_data : Dict
  output_data : Option Dict
  error_message : Option JValue
  deriving DecidableEq

/-! ## `trace_converter.py` -/

/-- A hashable Python scalar: the values usable as dict keys in the
converter's `_session_traces` map.  Lists and dicts are unhashable. -/
inductive PyScalar where
  | null : PyScalar
  | bool : Bool → PyScalar
  | num : Int → PyScalar
  | str : String → PyScalar
  deriving DecidableEq

/-- Python hashability of a JSON value: using a list or dict as a dict key
raises `TypeError`. -/
def toHashable : JValue → Option PyScalar
  | .null => some .null
  | .bool b => some (.bool b)
  | .num n => some (.num n)
  | .str s => some (.str s)
  | .arr _ => none
  | .obj _ => none

/-- `TraceConverter.TOOL_KIND_MAP` (the `"mcp__*"` entry is a literal key in
the source dict, matched only by the exact string). -/
def TOOL_KIND_MAP : List (String × SpanKind) :=
  [("Bash", .TOOL), ("Read", .TOOL), ("Write", .TOOL), ("Edit", .TOOL),
   ("Glob", .TOOL), ("Grep", .TOOL), ("Task", .AGENT), ("WebFetch", .TOOL),
   ("WebSearch", .TOOL), ("AskUserQuestion", .USER_INPUT), ("mcp__*", .TOOL)]

def kindMapLookup : List (String × SpanKind) → String → Option SpanKind
  | [], _ => none
  | (k, v) :: t, key => if k = key then some v else kindMapLookup t key

/-- `TraceConverter._get_span_kind`.  A non-string tool name fails the dict
membership test and then raises on `.startswith` (`AttributeError`), which
the source does not catch. -/
def get_span_kind (tool_name : JValue) : Except String SpanKind :=
  match tool_name with
  | .str s =>
    match kindMapLookup TOOL_KIND_MAP s with
    | some k => .ok k
    | none => if s.startsWith "mcp__" then .ok .TOOL else .ok .TOOL
  | _ => .error "AttributeError: startswith"

/-- `TraceConverter._normalize_input` (the `tool_name` argument is unused in
the source body). -/
def _normalize_input (tool_name : JValue) (tool_input : JValue) : Dict :=
  match tool_input with
  | .obj m => m
  | .str s => [("value", .str s)]
  | .null => []
  | v => [("value", .str v.pyStr)]

/-- `TraceConverter._normalize_output`. -/
def _normalize_output (tool_output : JValue) : Dict :=
  match tool_output with
  | .obj m => m
  | .str s => [("value", .str s)]
  | .null => []
  | v => [("value", .str v.pyStr)]

/-- Ambient process state read by the converter: the `CLAUDE_SESSION_ID`
environment variable and `os.getcwd()`. -/
structure Env where
  claude_session_id : Option String
  cwd : String

/-- Converter instance state: the `_session_traces` session → trace-id map,
plus a fresh-name counter modelling the `uuid.uuid4()` supply. -/
structure TraceConverter where
  session_traces : List (PyScalar × String)
  next_uuid : Nat
  deriving DecidableEq

/-- Model of `str(uuid.uuid4())`: the n-th fresh identifier drawn by this
converter instance. -/
def freshUuid (n : Nat) : String := "uuid-" ++ toString n

def assocLookup : List (PyScalar × String) → PyScalar → Option String
  | [], _ => none
  | (k, v) :: t, key => if k = key then some v else assocLookup t key

/-- `tool_name = hook_data.get("tool_name") or hook_data.get("tool", "unknown")` -/
def toolNameOf (hook_data : Dict) : JValue :=
  pyOr (dget hook_data "tool_name") (dgetD hook_data "tool" (.str "unknown"))

/-- `tool_input = hook_data.get("tool_input") or hook_data.get("input", {})` -/
def toolInputOf (hook_data : Dict) : JValue :=
  pyOr (dget hook_data "tool_input") (dgetD hook_data "input" (.obj []))

/-- `tool_output = hook_data.get("tool_output") or hook_data.get("output")` -/
def toolOutputOf (hook_data : Dict) : Option JValue :=
  pyOrOpt (dget hook_data "tool_output") (dget hook_data "output")

/-- `session_id = hook_data.get("session_id") or os.environ.get("CLAUDE_SESSION_ID", "unknown")` -/
def sessionIdOf (env : Env) (hook_data : Dict) : JValue :=
  pyOr (dget hook_data "session_id") (.str (env.claude_session_id.getD "unknown"))

/-- The resolved session value as a dict key (`none` when unhashable). -/
def sessionKeyOf (env : Env) (hook_data : Dict) : Option PyScalar :=
  toHashable (sessionIdOf env hook_data)

/-- `status` derivation inside `to_span`: PRE is always IN_PROGRESS; any
other hook type checks the truthiness of the raw `error` field. -/
def statusOf (hook_data : Dict) (hook_type : String) : SpanStatus :=
  if hook_type = "pre" then .IN_PROGRESS
  else if truthyOpt (dget hook_data "error") then .ERROR
  else .OK

/-- The `attributes` mapping built by `to_span`: `hook_type`, `working_dir`,
then optional passthrough of `conversation_id` and `model` keyed on dict
membership (not truthiness). -/
def attributesOf (env : Env) (hook_data : Dict) (hook_type : String) : Dict :=
  [("hook_type", .str hook_type),
   ("working_dir", pyOr (dget hook_data "working_dir") (.str env.cwd))]
  ++ (match dget hook_data "conversation_id" with
      | some v => [("conversation_id", v)]
      | none => [])
  ++ (match dget hook_data "model" with
      | some v => [("model", v)]
      | none => [])

/-- `TraceConverter.to_span`.  Returns the updated converter state together
with the outcome: the Python method mutates `self._session_traces` before
the points where it can raise, so a raising call still leaves its session
binding behind.  Failure points, in source order: an unhashable session id
(`TypeError` at the map membership test) and a non-string tool name
(`AttributeError` in `_get_span_kind`). -/
def to_span (env : Env) (c : TraceConverter) (hook_data : Dict)
    (hook_type : String) (now : Nat) : TraceConverter × Except String Span :=
  let tool_name := toolNameOf hook_data
  let tool_input := toolInputOf hook_data
  let tool_output := toolOutputOf hook_data
  match sessionKeyOf env hook_data with
  | none => (c, .error "TypeError: unhashable type")
  | some session_id =>
    -- get-or-create the trace id for this session, drawing a fresh uuid
    -- only when the session is new
    let c1 : TraceConverter :=
      match assocLookup c.session_traces session_id with
      | some _ => c
      | none => { session_traces := c.session_traces ++ [(session_id, freshUuid c.next_uuid)],
                  next_uuid := c.next_uuid + 1 }
    let trace_id := (assocLookup c1.session_traces session_id).getD ""
    let span_id := freshUuid c1.next_uuid
    let c2 : TraceConverter := { c1 with next_uuid := c1.next_uuid + 1 }
    match get_span_kind tool_name with
    | .error e => (c2, .error e)
    | .ok kind =>
      (c2, .ok
        { span_id := span_id
          parent_id := none
          trace_id := trace_id
          name := tool_name
          kind := kind
          platform := .CLAUDE_CODE
          start_time := now
          end_time := if hook_type = "post" then some now else none
          status := statusOf hook_data hook_type
          attributes := attributesOf env hook_data hook_type
          input_data := _normalize_input tool_name tool_input
          output_data :=
            match tool_output with
            | some v => if v.truthy then some (_normalize_output v) else none
            | none => none
          error_message := dget hook_data "error" })

/-- `TraceConverter.reset_session`: drop the cached session → trace-id
binding (`self._session_traces.pop(session_id, None)`). -/
def reset_session (c : TraceConverter) (session_id : PyScalar) : TraceConverter :=
  { c with session_traces := c.session_traces.filter (fun p => p.1 ≠ session_id) }

/-! ## `storage.py`

The two persistence paths of `TraceStorage`: the date-partitioned JSONL
append log and the SQLite `traces` table.  The table is modelled as a list
of rows in insertion order (the `created_at` autoincrement order used by
`ORDER BY created_at DESC`); the JSONL side is the list of appended lines
(date partitioning does not matter to any claim, and each record carries its
`start_time`, from which the partition name is derived).  `json.dumps` /
`json.loads` round-trips are modelled as the identity on the stored value.
Each write path takes a Bool telling whether the underlying I/O succeeds;
`False` makes the corresponding Python call raise `OSError`/`sqlite3.Error`
at that point. -/

/-- One JSON line of the append log, as built in `_write_jsonl`. -/
structure JsonlRecord where
  span_id : String
  trace_id : String
  parent_id : Option String
  name : JValue
  kind : String
  platform : String
  status : String
  start_time : Nat
  end_time : Option Nat
  attributes : Dict
  input_data : Dict
  output_data : Option Dict
  error : Option JValue
  raw : Option Dict
  deriving DecidableEq

/-- One row of the `traces` table, in the full current schema. -/
structure TraceRow where
  span_id : String
  trace_id : String
  parent_id : Option String
  session_id : JValue
  timestamp : Nat
  hook_type : JValue
  tool_name : JValue
  kind : String
  status : String
  tool_input : Option Dict
  tool_output : Option Dict
  attributes : Dict
  duration_ms : Option Int
  error : Option JValue
  working_dir : JValue
  deriving DecidableEq

/-- The two storage representations. -/
structure TraceStorage where
  jsonl : List JsonlRecord
  db : List TraceRow
  deriving DecidableEq

/-- The record dict serialized by `_write_jsonl`. -/
def jsonlRecordOf (span : Span) (raw_data : Option Dict) : JsonlRecord :=
  { span_id := span.span_id
    trace_id := span.trace_id
    parent_id := span.parent_id
    name := span.name
    kind := span.kind.value
    platform := "claude_code"
    status := span.status.value
    start_time := span.start_time
    end_time := span.end_time
    attributes := span.attributes
    input_data := span.input_data
    output_data := span.output_data
    error := span.error_message
    raw := raw_data }

/-- `TraceStorage._write_jsonl`: opens the date-partitioned file in append
mode and writes one line.  The method has no exception handler: when the
I/O fails the `OSError` escapes and nothing is appended. -/
def _write_jsonl (io_ok : Bool) (st : TraceStorage) (span : Span)
    (raw_data : Option Dict) : TraceStorage × Except String Unit :=
  if io_ok then
    ({ st with jsonl := st.jsonl ++ [jsonlRecordOf span raw_data] }, .ok ())
  else (st, .error "OSError")

/-- The row inserted by `_write_db`: note the `session_id` column is
`span.attributes.get("session_id") or span.trace_id`, the other columns are
straight copies or serializations. -/
def dbRowOf (span : Span) : TraceRow :=
  { span_id := span.span_id
    trace_id := span.trace_id
    parent_id := span.parent_id
    session_id := pyOr (dget span.attributes "session_id") (.str span.trace_id)
    timestamp := span.start_time
    hook_type := dgetD span.attributes "hook_type" (.str "unknown")
    tool_name := span.name
    kind := span.kind.value
    status := span.status.value
    tool_input := if span.input_data.isEmpty then none else some span.input_data
    tool_output :=
      match span.output_data with
      | some m => if m.isEmpty then none else some m
      | none => none
    attributes := span.attributes
    duration_ms :=
      match span.end_time with
      | some e => some ((e : Int) - (span.start_time : Int))
      | none => none
    error := span.error_message
    working_dir := dgetD span.attributes "working_dir" (.str "") }

/-- `TraceStorage._write_db`: the whole body is wrapped in
`try/except Exception`, so a failing insert is logged to stderr (the
returned `Option String`) and never propagates. -/
def _write_db (io_ok : Bool) (st : TraceStorage) (span : Span) :
    TraceStorage × Option String :=
  if io_ok then ({ st with db := st.db ++ [dbRowOf span] }, none)
  else (st, some "PISAMA DB error")

/-- `TraceStorage.store`: `_write_jsonl` first, then `_write_db`.  The JSONL
write is not guarded, so its failure propagates out of `store` and the
database write is never reached; a database failure is swallowed inside
`_write_db`.  Result: (state, stderr log, outcome of `store` itself). -/
def store (jsonl_ok db_ok : Bool) (st : TraceStorage) (span : Span)
    (raw_data : Option Dict) : TraceStorage × Option String × Except String Unit :=
  match _write_jsonl jsonl_ok st span raw_data with
  | (st1, .ok _) =>
    let (st2, log) := _write_db db_ok st1 span
    (st2, log, .ok ())
  | (st1, .error e) => (st1, none, .error e)

/-- `TraceStorage._row_to_span`: row → Span reconstruction.  Unknown enum
strings fall back to TOOL / OK via the `except ValueError` handlers;
`end_time` is hardcoded to `None` ("Not stored separately"); NULL payload
columns decode to the empty dict. -/
def _row_to_span (row : TraceRow) : Span :=
  { span_id := row.span_id
    parent_id := row.parent_id
    trace_id := row.trace_id
    name := row.tool_name
    kind := (spanKindOfValue row.kind).getD .TOOL
    platform := .CLAUDE_CODE
    start_time := row.timestamp
    end_time := none
    status := (spanStatusOfValue row.status).getD .OK
    attributes := row.attributes
    input_data := row.tool_input.getD []
    output_data := some (row.tool_output.getD [])
    error_message := row.error }

/-- The rows selected by the recent-trace queries: filtered by the
`session_id` column only when the argument is present and truthy (the
Python guard is `if session_id:`), ordered most-recent-first, limited. -/
def selectRecentRows (st : TraceStorage) (limit : Nat)
    (session_id : Option String) : List TraceRow :=
  let rows :=
    match session_id with
    | some s =>
      if s ≠ "" then
        st.db.filter (fun (r : TraceRow) => decide (r.session_id = JValue.str s))
      else st.db
    | none => st.db
  rows.reverse.take limit

/-- `TraceStorage.get_recent`. -/
def get_recent (st : TraceStorage) (limit : Nat) (session_id : Option String) :
    List Span :=
  (selectRecentRows st limit session_id).map _row_to_span

/-- `TraceStorage.get_tool_sequence`. -/
def get_tool_sequence (st : TraceStorage) (limit : Nat)
    (session_id : Option String) : List JValue :=
  (selectRecentRows st limit session_id).map (fun r => r.tool_name)

/-! ## `guardian.py`

`Guardian.analyze` drives the detection pipeline.  The pipeline engines
(`DetectionOrchestrator.analyze`, `ScoringEngine.calculate`) live in
`pisama_core`, outside this repository; `analyze` is therefore embedded as a
function of their outcomes: `detection` is the result of awaiting the
orchestrator (`Except` because the source wraps it in no handler — an
exception there escapes `analyze`), and `scoring` is the scoring engine.
The audit log and the per-session fix counter are returned explicitly; the
alert file and stderr injection are not observable by any claim and are
omitted.  `recent` spans / trace construction do not influence the result
fields the claims are about and are carried inside the opaque pipeline. -/

/-- One detection result, as consumed by `analyze`: detector name, detected
flag, severity, and the `evidence["issues"]` list. -/
structure DetectionResult where
  detector_name : String
  detected : Bool
  severity : Int
  issues : List String
  deriving DecidableEq

/-- `GuardianConfig` with its `__post_init__` defaults. -/
structure GuardianConfig where
  enabled : Bool := true
  mode : String := "manual"
  severity_threshold : Int := 40
  auto_fix_types : List String := ["break_loop", "add_delay", "switch_strategy"]
  blocked_fixes : List String := ["delete_file", "git_push", "external_api"]
  max_auto_fixes : Nat := 10
  deriving DecidableEq

/-- `GuardianResult` with its field defaults. -/
structure GuardianResult where
  should_block : Bool := false
  severity : Int := 0
  issues : List String := []
  recommendation : Option String := none
  action_taken : String := "allowed"
  message : Option String := none
  deriving DecidableEq

/-- One `audit.log(event, {...})` call: event name, severity and the
`action` field of the logged payload. -/
structure AuditEntry where
  event : String
  severity : Int
  action : String
  deriving DecidableEq

/-- `Guardian._get_recommendation`: first detection result matching a branch
of the `if/elif` chain decides; default `"break_loop"`. -/
def _get_recommendation : List DetectionResult → String
  | [] => "break_loop"
  | r :: rest =>
    if r.detected ∧ r.detector_name = "loop" then
      if 60 ≤ r.severity then "break_loop" else "switch_strategy"
    else if r.detected ∧ r.detector_name = "repetition" then "break_loop"
    else if r.detected ∧ r.detector_name = "coordination" then "escalate"
    else _get_recommendation rest

/-- The `issues` list gathered in `analyze`: the concatenated
`evidence["issues"]` of every detected result, in order. -/
def issuesOf (results : List DetectionResult) : List String :=
  results.foldr (fun r acc => (if r.detected then r.issues else []) ++ acc) []

/-- `Guardian._handle_report_mode`. -/
def _handle_report_mode (severity : Int) (issues : List String)
    (recommendation : String) : GuardianResult × List AuditEntry :=
  ({ severity := severity, issues := issues,
     recommendation := some recommendation, action_taken := "logged_only" },
   [{ event := "report", severity := severity, action := "logged_only" }])

/-- `Guardian._handle_manual_mode`: blocks iff severity ≥ 60. -/
def _handle_manual_mode (severity : Int) (issues : List String)
    (recommendation : String) : GuardianResult × List AuditEntry :=
  let should_block := 60 ≤ severity
  ({ should_block := should_block, severity := severity, issues := issues,
     recommendation := some recommendation,
     action_taken := if should_block then "blocked_for_approval" else "warning",
     message := some "Use /pisama-intervene to review and decide how to proceed." },
   [{ event := "intervention", severity := severity,
      action := if should_block then "blocked_for_approval" else "warning" }])

/-- `Guardian._escalate_to_manual`. -/
def _escalate_to_manual (severity : Int) (issues : List String)
    (recommendation : String) (reason : String) : GuardianResult × List AuditEntry :=
  ({ should_block := true, severity := severity, issues := issues,
     recommendation := some recommendation, action_taken := "escalated_to_manual",
     message := some ("Escalated due to: " ++ reason) },
   [{ event := "escalate", severity := severity, action := "escalated_to_manual" }])

/-- `Guardian._handle_auto_mode`: escalates when the recommendation is not
in the approved list or the session's fix counter is exhausted; otherwise
records an auto fix and increments the counter.  The returned `Nat` is the
session's updated fix count. -/
def _handle_auto_mode (cfg : GuardianConfig) (severity : Int)
    (issues : List String) (recommendation : String) (fix_count : Nat) :
    GuardianResult × List AuditEntry × Nat :=
  if recommendation ∉ cfg.auto_fix_types then
    let (r, a) := _escalate_to_manual severity issues recommendation "fix_type_not_approved"
    (r, a, fix_count)
  else if cfg.max_auto_fixes ≤ fix_count then
    let (r, a) := _escalate_to_manual severity issues recommendation "max_auto_fixes_reached"
    (r, a, fix_count)
  else
    ({ should_block := recommendation = "break_loop" ∧ 60 ≤ severity,
       severity := severity, issues := issues,
       recommendation := some recommendation, action_taken := "auto_fixed",
       message := some ("Auto-healing applied: " ++ recommendation) },
     [{ event := "auto_heal", severity := severity, action := "auto_fixed" }],
     fix_count + 1)

/-- `Guardian.analyze`, as a function of the detection pipeline outcomes.
The body has no `try/except`: a failure of the orchestrator or the scoring
engine (an `.error` here) escapes `analyze` itself.  Returns the guardian
result, the audit entries written, and the updated per-session fix count. -/
def analyze (cfg : GuardianConfig)
    (detection : Except String (List DetectionResult))
    (scoring : List DetectionResult → Except String Int)
    (fix_count : Nat) : Except String (GuardianResult × List AuditEntry × Nat) := do
  if ¬cfg.enabled then
    return ({ action_taken := "disabled" }, [], fix_count)
  let detection_results ← detection
  -- `if detection_results:` — empty list means severity 0 and no issues
  let severity ← if detection_results.isEmpty then pure 0 else scoring detection_results
  let issues := if detection_results.isEmpty then [] else issuesOf detection_results
  if severity < cfg.severity_threshold then
    -- below threshold: warn on the audit channel when within 10 points
    let audit :=
      if cfg.severity_threshold - 10 ≤ severity ∧ ¬issues.isEmpty then
        [{ event := "warning", severity := severity, action := "allowed" : AuditEntry }]
      else []
    return ({ severity := severity, issues := issues, action_taken := "allowed" },
            audit, fix_count)
  else
    let recommendation := _get_recommendation detection_results
    if cfg.mode = "report" then
      let (r, a) := _handle_report_mode severity issues recommendation
      return (r, a, fix_count)
    else if cfg.mode = "auto" then
      return _handle_auto_mode cfg severity issues recommendation fix_count
    else
      let (r, a) := _handle_manual_mode severity issues recommendation
      return (r, a, fix_count)

/-! ## `hooks/guardian_hook.py` -/

/-- Exit code of the hook's `main` given the outcome of `analyze_sync`: a
blocking result exits 1, everything else exits 0, and the
`except Exception` handler turns any escaped exception into exit 0
(log to stderr, never block). -/
def hookMainExit (analysis : Except String (GuardianResult × List AuditEntry × Nat)) : Nat :=
  match analysis with
  | .ok (r, _, _) => if r.should_block then 1 else 0
  | .error _ => 0

/-- The `max_consecutive` loop of `_fallback_detection`:
`current_consecutive`/`max_consecutive` scan over adjacent pairs. -/
def maxConsecutiveAux [DecidableEq α] : α → Nat → Nat → List α → Nat
  | _, _, mx, [] => mx
  | prev, cur, mx, x :: xs =>
    if x = prev then maxConsecutiveAux x (cur + 1) (max mx (cur + 1)) xs
    else maxConsecutiveAux x 1 mx xs

/-- `max_consecutive` for a whole sequence (both counters start at 1). -/
def max_consecutive [DecidableEq α] : List α → Nat
  | [] => 1
  | x :: xs => maxConsecutiveAux x 1 1 xs

/-- The detection predicate of `_fallback_detection`: a sequence of at least
5 recent tool names whose longest consecutive run is at least 5. -/
def loopDetected [DecidableEq α] (tool_sequence : List α) : Bool :=
  decide (5 ≤ tool_sequence.length) && decide (5 ≤ max_consecutive tool_sequence)

/-- `_fallback_detection`: prepends the current tool
(`hook_data.get("tool_name", hook_data.get("tool", "unknown"))` — a plain
two-level `.get` with defaults, no truthiness test) to the recent tool
names read from the database, and exits 1 exactly when the loop check
fires. -/
def _fallback_detection (hook_data : Dict) (recent_tools : List JValue) : Nat :=
  let current_tool := dgetD hook_data "tool_name" (dgetD hook_data "tool" (.str "unknown"))
  let tool_sequence := current_tool :: recent_tools
  if loopDetected tool_sequence then 1 else 0

/-! ## `cli.py` — `normalize_trace`

The CLI-side normalizer reconciling the old JSONL record shape
(`tool_name`/`timestamp`/`tool_input`, `hook_type` at top level) with the
new span shape (`name`/`start_time`/`input_data`, `hook_type` nested under
`attributes`).  `Except` failures model the `AttributeError`/`TypeError`
Python raises when a fallback lands on a non-dict `attributes`/`usage`
value or a non-sliceable `trace_id`; the `_raw` passthrough field is the
input itself and is omitted from the record. -/

/-- The normalized record built by `normalize_trace`.  `tool_name` and
`timestamp` stay `none` when both the old and the new key are missing or
falsy (Python leaves `None` there). -/
structure NormalizedTrace where
  tool_name : Option JValue
  timestamp : Option JValue
  hook_type : JValue
  session_id : JValue
  tool_input : JValue
  working_dir : JValue
  model : Option JValue
  input_tokens : JValue
  output_tokens : JValue
  cache_read_tokens : JValue
  cost_usd : JValue
  ai_response : Option JValue
  deriving DecidableEq

/-- The `pre`/`post` expansion applied to the resolved `hook_type` value. -/
def hookTypeNorm (v : JValue) : JValue :=
  if v = .str "pre" then .str "PreToolUse"
  else if v = .str "post" then .str "PostToolUse"
  else v

/-- `t.get(key) or attrs.get(key, "")` where `attrs = t.get("attributes", {})`:
the attribute fallback is only evaluated (and can only raise) when the
top-level value is absent or falsy. -/
def topOrAttr (t : Dict) (key : String) : Except String JValue :=
  match dget t key with
  | some v =>
    if v.truthy then .ok v
    else
      match dgetD t "attributes" (.obj []) with
      | .obj m => .ok (dgetD m key (.str ""))
      | _ => .error "AttributeError: get"
  | none =>
    match dgetD t "attributes" (.obj []) with
    | .obj m => .ok (dgetD m key (.str ""))
    | _ => .error "AttributeError: get"

/-- `t.get("session_id") or t.get("trace_id", "")[:8]`: the slice fallback
works on strings and lists and raises `TypeError` otherwise. -/
def sessionIdFallback (t : Dict) : Except String JValue :=
  match dgetD t "trace_id" (.str "") with
  | .str s => .ok (.str (s.take 8))
  | .arr xs => .ok (.arr (xs.take 8))
  | _ => .error "TypeError: slice"

/-- `session_id = t.get("session_id") or t.get("trace_id", "")[:8]`. -/
def sessionIdResolve (t : Dict) : Except String JValue :=
  match dget t "session_id" with
  | some v => if v.truthy then .ok v else sessionIdFallback t
  | none => sessionIdFallback t

/-- `usage.get(key, 0) if usage else 0` where `usage = t.get("usage", {})`. -/
def usageField (usage : JValue) (key : String) : Except String JValue :=
  if usage.truthy then
    match usage with
    | .obj m => .ok (dgetD m key (.num 0))
    | _ => .error "AttributeError: get"
  else .ok (.num 0)

/-- `cli.normalize_trace`. -/
def normalize_trace (t : Dict) : Except String NormalizedTrace := do
  -- new format uses name, old uses tool_name — the source tries tool_name first
  let tool_name := pyOrOpt (dget t "tool_name") (dget t "name")
  -- new format uses start_time, old uses timestamp — timestamp first
  let timestamp := pyOrOpt (dget t "timestamp") (dget t "start_time")
  let hook_type_raw ← topOrAttr t "hook_type"
  let hook_type := hookTypeNorm hook_type_raw
  let tool_input := pyOr (dget t "tool_input") (dgetD t "input_data" (.obj []))
  let session_id ← sessionIdResolve t
  let usage := dgetD t "usage" (.obj [])
  let input_tokens ← usageField usage "input_tokens"
  let output_tokens ← usageField usage "output_tokens"
  let cache_read ← usageField usage "cache_read_input_tokens"
  let working_dir ← topOrAttr t "working_dir"
  return { tool_name := tool_name
           timestamp := timestamp
           hook_type := hook_type
           session_id := session_id
           tool_input := tool_input
           working_dir := working_dir
           model := dget t "model"
           input_tokens := input_tokens
           output_tokens := output_tokens
           cache_read_tokens := cache_read
           cost_usd := dgetD t "cost_usd" (.num 0)
           ai_response := dget t "ai_response" }

/-! ## Supporting lemmas -/

theorem dget_append (a b : Dict) (k : String) :
    dget (a ++ b) k = match dget a k with
      | some v => some v
      | none => dget b k := by
  induction a with
  | nil => simp [dget]
  | cons p t ih =>
    obtain ⟨k1, v1⟩ := p
    by_cases h : k1 = k
    · simp [dget, h]
    · simp [dget, h, ih]

/-- Every field of the span produced by a successful `to_span`, in terms of
the raw hook data. -/
theorem to_span_ok_fields (env : Env) (c : TraceConverter) (d : Dict)
    (ht : String) (now : Nat) (c2 : TraceConverter) (sp : Span)
    (h : to_span env c d ht now = (c2, .ok sp)) :
    sp.status = statusOf d ht ∧
    sp.attributes = attributesOf env d ht ∧
    sp.name = toolNameOf d ∧
    sp.input_data = _normalize_input (toolNameOf d) (toolInputOf d) ∧
    sp.output_data = (match toolOutputOf d with
      | some v => if v.truthy then some (_normalize_output v) else none
      | none => none) ∧
    sp.end_time = (if ht = "post" then some now else none) ∧
    sp.start_time = now ∧
    sp.error_message = dget d "error" ∧
    sp.parent_id = none := by
  unfold to_span at h
  cases hk : sessionKeyOf env d with
  | none => rw [hk] at h; simp at h
  | some s =>
    rw [hk] at h
    simp only at h
    cases hg : get_span_kind (toolNameOf d) with
    | error e => rw [hg] at h; simp at h
    | ok kind =>
      rw [hg] at h
      simp only [Prod.mk.injEq, Except.ok.injEq] at h
      obtain ⟨-, hsp⟩ := h
      subst hsp
      refine ⟨rfl, rfl, rfl, rfl, rfl, rfl, rfl, rfl, rfl⟩

theorem assocLookup_append (a b : List (PyScalar × String)) (k : PyScalar) :
    assocLookup (a ++ b) k = match assocLookup a k with
      | some v => some v
      | none => assocLookup b k := by
  induction a with
  | nil => simp [assocLookup]
  | cons p t ih =>
    obtain ⟨k1, v1⟩ := p
    by_cases h : k1 = k
    · simp [assocLookup, h]
    · simp [assocLookup, h, ih]

/-- State evolution of `to_span`: existing session bindings survive every
call (failing or not), and on success the produced span's trace id is the
binding of the resolved session key in the updated state. -/
theorem to_span_state (env : Env) (c : TraceConverter) (d : Dict)
    (ht : String) (now : Nat) (c2 : TraceConverter) (r : Except String Span)
    (h : to_span env c d ht now = (c2, r)) :
    (∀ s t, assocLookup c.session_traces s = some t →
      assocLookup c2.session_traces s = some t) ∧
    (∀ sp, r = .ok sp → ∀ s, sessionKeyOf env d = some s →
      assocLookup c2.session_traces s = some sp.trace_id) := by
  unfold to_span at h
  cases hk : sessionKeyOf env d with
  | none =>
    rw [hk] at h
    simp only [Prod.mk.injEq] at h
    obtain ⟨hc, hr⟩ := h
    subst hc
    subst hr
    exact ⟨fun s t hst => hst, fun sp hsp => by simp at hsp⟩
  | some s0 =>
    rw [hk] at h
    simp only at h
    cases hl : assocLookup c.session_traces s0 with
    | some t0 =>
      rw [hl] at h
      cases hg : get_span_kind (toolNameOf d) with
      | error e =>
        rw [hg] at h
        simp only [Prod.mk.injEq] at h
        obtain ⟨hc, hr⟩ := h
        subst hc
        subst hr
        exact ⟨fun s t hst => hst, fun sp hsp => by simp at hsp⟩
      | ok kind =>
        rw [hg] at h
        simp only [Prod.mk.injEq] at h
        obtain ⟨hc, hr⟩ := h
        subst hc
        subst hr
        refine ⟨fun s t hst => hst, fun sp hsp s hs => ?_⟩
        simp only [Except.ok.injEq] at hsp
        subst hsp
        simp only [Option.some.injEq] at hs
        subst hs
        simp [hl]
    | none =>
      rw [hl] at h
      cases hg : get_span_kind (toolNameOf d) with
      | error e =>
        rw [hg] at h
        simp only [Prod.mk.injEq] at h
        obtain ⟨hc, hr⟩ := h
        subst hc
        subst hr
        refine ⟨fun s t hst => ?_, fun sp hsp => by simp at hsp⟩
        simp only [assocLookup_append, hst]
      | ok kind =>
        rw [hg] at h
        simp only [Prod.mk.injEq] at h
        obtain ⟨hc, hr⟩ := h
        subst hc
        subst hr
        refine ⟨fun s t hst => ?_, fun sp hsp s hs => ?_⟩
        · simp only [assocLookup_append, hst]
        · simp only [Except.ok.injEq] at hsp
          subst hsp
          simp only [Option.some.injEq] at hs
          subst hs
          simp [assocLookup_append, hl, assocLookup]

/-- Demonstration environment used by concrete instances below. -/
def env0 : Env := { claude_session_id := none, cwd := "/work" }

/-- A fresh converter instance (`TraceConverter.__init__`). -/
def conv0 : TraceConverter := { session_traces := [], next_uuid := 0 }

/-- Placeholder span used only to project concrete `to_span` results. -/
def spanDefault : Span :=
  { span_id := "", parent_id := none, trace_id := "", name := .null,
    kind := .TOOL, platform := .CLAUDE_CODE, start_time := 0, end_time := none,
    status := .OK, attributes := [], input_data := [], output_data := none,
    error_message := none }

/-- Placeholder normalized record used only to project concrete
`normalize_trace` results. -/
def nrDefault : NormalizedTrace :=
  { tool_name := none, timestamp := none, hook_type := .str "",
    session_id := .str "", tool_input := .obj [], working_dir := .str "",
    model := none, input_tokens := .num 0, output_tokens := .num 0,
    cache_read_tokens := .num 0, cost_usd := .num 0, ai_response := none }

/-! ## C5 — status derivation -/

/-- A POST event whose raw `error` field is present but an empty string. -/
def dC5 : Dict := [("tool_name", .str "Bash"), ("error", .str "")]

/-- C5 counterexample: the claim says a POST event is ERROR iff an error
field is present; on `dC5` the error field is present, `to_span` succeeds,
yet the status is OK (the source tests `if error:`, i.e. truthiness, not
presence). -/
theorem C5_counterexample :
    (dget dC5 "error").isSome = true ∧
    (to_span env0 conv0 dC5 "post" 0).2.map Span.status = .ok SpanStatus.OK ∧
    SpanStatus.OK ≠ SpanStatus.ERROR := by
  refine ⟨rfl, ?_, by decide⟩
  rfl

/-- C5 (amended): normalization with hook type PRE always yields status
IN_PROGRESS; with hook type POST the status is ERROR iff the raw event's
`error` field is present with a truthy value, and is OK otherwise (never
IN_PROGRESS). -/
theorem C5_status_derivation (env : Env) (c : TraceConverter) (d : Dict)
    (now : Nat) (c2 : TraceConverter) (sp : Span) :
    (to_span env c d "pre" now = (c2, .ok sp) → sp.status = SpanStatus.IN_PROGRESS) ∧
    (to_span env c d "post" now = (c2, .ok sp) →
      ((sp.status = SpanStatus.ERROR ↔ truthyOpt (dget d "error") = true) ∧
       (sp.status = SpanStatus.ERROR ∨ sp.status = SpanStatus.OK))) := by
  constructor
  · intro h
    have hs := (to_span_ok_fields env c d "pre" now c2 sp h).1
    rw [hs]
    simp [statusOf]
  · intro h
    have hs := (to_span_ok_fields env c d "post" now c2 sp h).1
    rw [hs]
    unfold statusOf
    by_cases he : truthyOpt (dget d "error") = true
    · simp [he]
    · simp at he
      simp [he]

/-- Concrete instantiation of `C5_status_derivation`: a POST event carrying
`error = "boom"` (truthy) gets status ERROR. -/
theorem C5_status_derivation_witness :
    ((to_span env0 conv0 [("tool_name", JValue.str "Read"), ("error", JValue.str "boom")]
        "post" 0).2.toOption.getD spanDefault).status = SpanStatus.ERROR := by
  have h := (C5_status_derivation env0 conv0
    [("tool_name", JValue.str "Read"), ("error", JValue.str "boom")] 0
    (to_span env0 conv0 [("tool_name", JValue.str "Read"), ("error", JValue.str "boom")] "post" 0).1
    ((to_span env0 conv0 [("tool_name", JValue.str "Read"), ("error", JValue.str "boom")]
        "post" 0).2.toOption.getD spanDefault)).2 (by rfl)
  exact h.1.mpr (by decide)

/-! ## C7 — payload normalization -/

/-- C7 counterexample: the claim says the normalized output payload of
every raw event is a mapping, with absent output becoming `{}`; but for an
event with no output field at all, `to_span` leaves `output_data = None`
(the source only calls `_normalize_output` under `if tool_output:`), so the
output payload is not a mapping. -/
theorem C7_counterexample :
    (to_span env0 conv0 [("tool_name", JValue.str "Bash")] "pre" 0).2.map Span.output_data
      = .ok none ∧
    (none : Option Dict) ≠ some [] := by
  exact ⟨rfl, by decide⟩

/-- C7 (amended): the normalized *input* payload is always a mapping,
following the stated rules (mapping unchanged, string wrapped under
`value`, `None`/absent becoming `{}`, other values stringified and
wrapped); the *output* payload follows the same rules only when the raw
output value is truthy, and is `None` — not the empty mapping — whenever the
raw output is absent, `None`, or otherwise falsy. -/
theorem C7_payload_normalization (env : Env) (c : TraceConverter) (d : Dict)
    (ht : String) (now : Nat) (c2 : TraceConverter) (sp : Span)
    (h : to_span env c d ht now = (c2, .ok sp)) :
    (∀ m, toolInputOf d = .obj m → sp.input_data = m) ∧
    (∀ s, toolInputOf d = .str s → sp.input_data = [("value", .str s)]) ∧
    (toolInputOf d = .null → sp.input_data = []) ∧
    (∀ v, toolInputOf d = v → (∀ m, v ≠ .obj m) → (∀ s, v ≠ .str s) → v ≠ .null →
      sp.input_data = [("value", .str v.pyStr)]) ∧
    (truthyOpt (toolOutputOf d) = false → sp.output_data = none) ∧
    (∀ v, toolOutputOf d = some v → v.truthy = true →
      sp.output_data = some (_normalize_output v)) ∧
    (∀ m, _normalize_output (.obj m) = m) ∧
    (∀ s, _normalize_output (.str s) = [("value", .str s)]) ∧
    (_normalize_output .null = []) := by
  obtain ⟨-, -, -, hin, hout, -⟩ := to_span_ok_fields env c d ht now c2 sp h
  refine ⟨?_, ?_, ?_, ?_, ?_, ?_, fun m => rfl, fun s => rfl, rfl⟩
  · intro m hm; rw [hin, hm]; rfl
  · intro s hs; rw [hin, hs]; rfl
  · intro hn; rw [hin, hn]; rfl
  · intro v hv hobj hstr hnull
    rw [hin, hv]
    cases v with
    | null => exact absurd rfl hnull
    | bool b => rfl
    | num n => rfl
    | str s => exact absurd rfl (hstr s)
    | arr xs => rfl
    | obj m => exact absurd rfl (hobj m)
  · intro hf
    rw [hout]
    cases ho : toolOutputOf d with
    | none => rfl
    | some v =>
      rw [ho] at hf
      simp only [truthyOpt] at hf
      simp [hf]
  · intro v hv htr
    rw [hout, hv]
    simp [htr]

/-- Concrete instantiation of `C7_payload_normalization`: a string input is
wrapped under `value` and a truthy dict output passes through unchanged. -/
theorem C7_payload_normalization_witness :
    ((to_span env0 conv0
        [("tool_name", JValue.str "Bash"), ("tool_input", JValue.str "ls"),
         ("tool_output", JValue.obj [("ok", JValue.bool true)])]
        "post" 0).2.toOption.getD spanDefault).input_data
      = [("value", JValue.str "ls")] ∧
    ((to_span env0 conv0
        [("tool_name", JValue.str "Bash"), ("tool_input", JValue.str "ls"),
         ("tool_output", JValue.obj [("ok", JValue.bool true)])]
        "post" 0).2.toOption.getD spanDefault).output_data
      = some [("ok", JValue.bool true)] := by
  have h := C7_payload_normalization env0 conv0
    [("tool_name", JValue.str "Bash"), ("tool_input", JValue.str "ls"),
     ("tool_output", JValue.obj [("ok", JValue.bool true)])] "post" 0
    (to_span env0 conv0
      [("tool_name", JValue.str "Bash"), ("tool_input", JValue.str "ls"),
       ("tool_output", JValue.obj [("ok", JValue.bool true)])] "post" 0).1
    ((to_span env0 conv0
      [("tool_name", JValue.str "Bash"), ("tool_input", JValue.str "ls"),
       ("tool_output", JValue.obj [("ok", JValue.bool true)])] "post" 0).2.toOption.getD
      spanDefault)
    (by rfl)
  refine ⟨h.2.1 "ls" (by rfl), ?_⟩
  rw [h.2.2.2.2.2.1 (JValue.obj [("ok", JValue.bool true)]) (by rfl) (by decide)]
  rfl

/-- The resolved fields of a successful `normalize_trace`, in terms of the
raw record. -/
theorem normalize_trace_ok_fields (t : Dict) (r : NormalizedTrace)
    (h : normalize_trace t = .ok r) :
    r.tool_name = pyOrOpt (dget t "tool_name") (dget t "name") ∧
    r.timestamp = pyOrOpt (dget t "timestamp") (dget t "start_time") ∧
    r.tool_input = pyOr (dget t "tool_input") (dgetD t "input_data" (.obj [])) ∧
    (∀ e, topOrAttr t "hook_type" = .ok e → r.hook_type = hookTypeNorm e) := by
  unfold normalize_trace at h
  simp only [bind, Except.bind] at h
  cases h1 : topOrAttr t "hook_type" with
  | error e => rw [h1] at h; simp at h
  | ok htv =>
    rw [h1] at h
    cases h2 : sessionIdResolve t with
    | error e => rw [h2] at h; simp at h
    | ok sid =>
      rw [h2] at h
      cases h3 : usageField (dgetD t "usage" (.obj [])) "input_tokens" with
      | error e => rw [h3] at h; simp at h
      | ok itok =>
        rw [h3] at h
        cases h4 : usageField (dgetD t "usage" (.obj [])) "output_tokens" with
        | error e => rw [h4] at h; simp at h
        | ok otok =>
          rw [h4] at h
          cases h5 : usageField (dgetD t "usage" (.obj [])) "cache_read_input_tokens" with
          | error e => rw [h5] at h; simp at h
          | ok ctok =>
            rw [h5] at h
            cases h6 : topOrAttr t "working_dir" with
            | error e => rw [h6] at h; simp at h
            | ok wd =>
              rw [h6] at h
              simp only [pure, Except.pure, Except.ok.injEq] at h
              subst h
              refine ⟨rfl, rfl, rfl, fun e he => ?_⟩
              simp only [h1, Except.ok.injEq] at he
              subst he
              rfl

/-! ## C6 — field resolution order -/

/-- A record carrying both the current-shape and the legacy-shape key for
the same logical fields, with distinct values. -/
def tC6 : Dict :=
  [("name", .str "Read"), ("tool_name", .str "Bash"),
   ("start_time", .str "2024-01-02T00:00:00"), ("timestamp", .str "2024-01-01T00:00:00"),
   ("input_data", .obj [("file_path", .str "/tmp/x")]),
   ("tool_input", .obj [("command", .str "ls")])]

/-- C6 counterexample: the claim says normalization uses the current-shape
key (`name`, `start_time`, `input_data`) when both are present; on `tC6`
the source resolves each field from the legacy-shape key instead
(`t.get("tool_name") or t.get("name")`, etc.). -/
theorem C6_counterexample :
    dget tC6 "name" = some (.str "Read") ∧
    (normalize_trace tC6).map NormalizedTrace.tool_name = .ok (some (.str "Bash")) ∧
    some (JValue.str "Bash") ≠ some (JValue.str "Read") ∧
    dget tC6 "start_time" = some (.str "2024-01-02T00:00:00") ∧
    (normalize_trace tC6).map NormalizedTrace.timestamp
      = .ok (some (.str "2024-01-01T00:00:00")) ∧
    dget tC6 "input_data" = some (.obj [("file_path", .str "/tmp/x")]) ∧
    (normalize_trace tC6).map NormalizedTrace.tool_input
      = .ok (.obj [("command", .str "ls")]) := by
  exact ⟨rfl, rfl, by decide, rfl, rfl, rfl, rfl⟩

/-- C6 (amended): `normalize_trace` prefers the *legacy*-shape key
(`tool_name`, `timestamp`, `tool_input`, top-level `hook_type`); the
current-shape key (`name`, `start_time`, `input_data`, nested `hook_type`)
is consulted only when the legacy key is absent or its value falsy. -/
theorem C6_field_resolution (t : Dict) (r : NormalizedTrace)
    (h : normalize_trace t = .ok r) :
    (∀ v, dget t "tool_name" = some v → v.truthy = true → r.tool_name = some v) ∧
    (truthyOpt (dget t "tool_name") = false → r.tool_name = dget t "name") ∧
    (∀ v, dget t "timestamp" = some v → v.truthy = true → r.timestamp = some v) ∧
    (truthyOpt (dget t "timestamp") = false → r.timestamp = dget t "start_time") ∧
    (∀ v, dget t "tool_input" = some v → v.truthy = true → r.tool_input = v) ∧
    (truthyOpt (dget t "tool_input") = false →
      r.tool_input = dgetD t "input_data" (.obj [])) ∧
    (∀ v, dget t "hook_type" = some v → v.truthy = true →
      r.hook_type = hookTypeNorm v) := by
  obtain ⟨hn, hts, hti, hht⟩ := normalize_trace_ok_fields t r h
  refine ⟨?_, ?_, ?_, ?_, ?_, ?_, ?_⟩
  · intro v hv htr; rw [hn, hv]; simp [pyOrOpt, htr]
  · intro hf
    rw [hn]
    cases hv : dget t "tool_name" with
    | none => simp [pyOrOpt]
    | some v =>
      rw [hv] at hf
      simp only [truthyOpt] at hf
      simp [pyOrOpt, hf]
  · intro v hv htr; rw [hts, hv]; simp [pyOrOpt, htr]
  · intro hf
    rw [hts]
    cases hv : dget t "timestamp" with
    | none => simp [pyOrOpt]
    | some v =>
      rw [hv] at hf
      simp only [truthyOpt] at hf
      simp [pyOrOpt, hf]
  · intro v hv htr; rw [hti, hv]; simp [pyOr, htr]
  · intro hf
    rw [hti]
    cases hv : dget t "tool_input" with
    | none => simp [pyOr]
    | some v =>
      rw [hv] at hf
      simp only [truthyOpt] at hf
      simp [pyOr, hf]
  · intro v hv htr
    refine hht v ?_
    unfold topOrAttr
    rw [hv]
    simp [htr]

/-- Concrete instantiation of `C6_field_resolution`: a record with only the
current-shape keys resolves from them. -/
theorem C6_field_resolution_witness :
    ((normalize_trace [("name", JValue.str "Read"),
        ("input_data", JValue.obj [("file_path", JValue.str "/tmp/x")])]).toOption.getD
      nrDefault).tool_name = some (JValue.str "Read") := by
  have h := C6_field_resolution
    [("name", JValue.str "Read"),
     ("input_data", JValue.obj [("file_path", JValue.str "/tmp/x")])]
    ((normalize_trace [("name", JValue.str "Read"),
        ("input_data", JValue.obj [("file_path", JValue.str "/tmp/x")])]).toOption.getD
      nrDefault)
    (by rfl)
  exact (h.2.1 (by rfl)).trans (by rfl)

/-! ## C1 — write independence of the two persistence paths -/

/-- A concrete canonical event for the storage instances. -/
def spC1 : Span :=
  { span_id := "s1", parent_id := none, trace_id := "t1", name := .str "Bash",
    kind := .TOOL, platform := .CLAUDE_CODE, start_time := 0, end_time := none,
    status := .IN_PROGRESS,
    attributes := [("hook_type", .str "pre"), ("working_dir", .str "/w")],
    input_data := [("command", .str "ls")], output_data := none,
    error_message := none }

/-- C1 counterexample: the claim says that when the Append Log (JSONL) write
fails, the Indexed Store row is still written and the failure does not
propagate out of `store`.  With a failing JSONL write and a healthy
database, `store` on the empty storage raises (`.error`) and leaves the
database without the row: `_write_jsonl` runs first and is unguarded. -/
theorem C1_counterexample :
    store false true { jsonl := [], db := [] } spC1 none
      = ({ jsonl := [], db := [] }, none, .error "OSError") ∧
    (store false true { jsonl := [], db := [] } spC1 none).1.db = [] := by
  exact ⟨rfl, rfl⟩

/-- C1 (amended): the two persistence paths are independent in one
direction only.  If the Indexed Store write fails, the Append Log line is
still written and the failure is swallowed (logged to stderr, `store`
returns normally); but if the Append Log write fails, the exception
propagates out of `store`, the state is unchanged, and the Indexed Store
write is never attempted. -/
theorem C1_write_independence (st : TraceStorage) (span : Span)
    (raw : Option Dict) (b : Bool) :
    (store true false st span raw).1.jsonl = st.jsonl ++ [jsonlRecordOf span raw] ∧
    (store true false st span raw).1.db = st.db ∧
    (store true false st span raw).2.2 = .ok () ∧
    (store true false st span raw).2.1 = some "PISAMA DB error" ∧
    store false b st span raw = (st, none, .error "OSError") ∧
    store true true st span raw
      = ({ jsonl := st.jsonl ++ [jsonlRecordOf span raw],
           db := st.db ++ [dbRowOf span] }, none, .ok ()) := by
  refine ⟨rfl, rfl, rfl, rfl, rfl, rfl⟩

/-! ## C3 — detection failure semantics -/

/-- C3 counterexample: the claim says that when an internal step of the
detection/scoring pipeline raises, `Guardian.analyze` still returns a
severity-0 "allowed" result and never propagates the exception.  With the
default (enabled) configuration and a failing detection step, `analyze`
propagates the failure — its body has no exception handler — and returns no
result at all. -/
theorem C3_counterexample :
    analyze {} (Except.error "boom") (fun _ => .ok 0) 0 = .error "boom" ∧
    (analyze {} (Except.error "boom") (fun _ => .ok 0) 0).toOption = none := by
  exact ⟨rfl, rfl⟩

/-- C3 (amended): an exception in the detection/scoring pipeline propagates
out of `Guardian.analyze` itself (whenever the guardian is enabled); it is
the hook entry point (`guardian_hook.main`) that catches every exception
and exits 0 — the action stays allowed, the agent is never blocked — without
constructing a severity-0 result. -/
theorem C3_failure_containment (cfg : GuardianConfig)
    (scoring : List DetectionResult → Except String Int) (fc : Nat) (e : String) :
    hookMainExit (analyze cfg (.error e) scoring fc) = 0 ∧
    (cfg.enabled = true → analyze cfg (.error e) scoring fc = .error e) := by
  constructor
  · unfold analyze hookMainExit
    by_cases he : cfg.enabled
    · simp [he, bind, Except.bind, pure, Except.pure]
    · simp [he, pure, Except.pure]
  · intro he
    unfold analyze
    simp [he, bind, Except.bind, pure, Except.pure]

/-- Concrete instantiation of `C3_failure_containment`: with the default
(enabled) configuration the pipeline failure escapes `analyze`. -/
theorem C3_failure_containment_witness :
    analyze {} (.error "crash") (fun _ => .ok 50) 0 = .error "crash" :=
  (C3_failure_containment {} (fun _ => .ok 50) 0 "crash").2 rfl

/-! ## C4 — enforcement threshold boundary -/

/-- Reduction of `analyze` when the guardian is enabled and the pipeline
succeeds on a non-empty result list. -/
theorem analyze_ok_reduce (cfg : GuardianConfig) (results : List DetectionResult)
    (s : Int) (fc : Nat) (h1 : cfg.enabled = true) (hne : results.isEmpty = false) :
    analyze cfg (.ok results) (fun _ => .ok s) fc =
      if s < cfg.severity_threshold then
        .ok ({ severity := s, issues := issuesOf results, action_taken := "allowed" },
          (if cfg.severity_threshold - 10 ≤ s ∧ ¬(issuesOf results).isEmpty then
            [{ event := "warning", severity := s, action := "allowed" }]
          else []), fc)
      else if cfg.mode = "report" then
        .ok ((_handle_report_mode s (issuesOf results) (_get_recommendation results)).1,
             (_handle_report_mode s (issuesOf results) (_get_recommendation results)).2, fc)
      else if cfg.mode = "auto" then
        .ok (_handle_auto_mode cfg s (issuesOf results) (_get_recommendation results) fc)
      else
        .ok ((_handle_manual_mode s (issuesOf results) (_get_recommendation results)).1,
             (_handle_manual_mode s (issuesOf results) (_get_recommendation results)).2, fc) := by
  unfold analyze
  simp [h1, hne, bind, Except.bind, pure, Except.pure]

/-- C4: with the guardian enabled and the threshold at its default 40, a
combined severity below 40 yields an "allowed", non-blocking result, with a
warning audit entry exactly when the severity is within 10 points of the
threshold and issues exist; a severity of 40 or more never yields
"allowed" — the action is decided by the configured mode (report → logged
only and no block; auto → auto-fixed or escalated; any other mode → the
manual handler, blocking iff severity ≥ 60).  The boundary severity 40
itself falls on the mode-evaluated side. -/
theorem C4_threshold_boundary (cfg : GuardianConfig) (results : List DetectionResult)
    (s : Int) (fc : Nat)
    (h1 : cfg.enabled = true) (h2 : cfg.severity_threshold = 40)
    (h3 : results ≠ []) :
    ∃ r audit fc2,
      analyze cfg (.ok results) (fun _ => .ok s) fc = .ok (r, audit, fc2) ∧
      r.severity = s ∧
      (s < 40 →
        r.action_taken = "allowed" ∧ r.should_block = false ∧
        (audit ≠ [] ↔ (30 ≤ s ∧ issuesOf results ≠ [])) ∧
        (∀ a ∈ audit, a.event = "warning" ∧ a.action = "allowed")) ∧
      (40 ≤ s →
        r.action_taken ≠ "allowed" ∧
        (cfg.mode = "report" → r.action_taken = "logged_only" ∧ r.should_block = false) ∧
        (cfg.mode = "auto" →
          r.action_taken = "auto_fixed" ∨ r.action_taken = "escalated_to_manual") ∧
        (cfg.mode ≠ "report" → cfg.mode ≠ "auto" →
          (r.action_taken = "blocked_for_approval" ∧ r.should_block = true ∧ 60 ≤ s) ∨
          (r.action_taken = "warning" ∧ r.should_block = false ∧ s < 60))) := by
  have hne : results.isEmpty = false := by simpa using h3
  have heq := analyze_ok_reduce cfg results s fc h1 hne
  rw [h2] at heq
  by_cases hlt : s < 40
  · rw [if_pos hlt] at heq
    refine ⟨_, _, _, heq, rfl, fun _ => ⟨rfl, rfl, ?_, ?_⟩, fun hge => absurd hge (by omega)⟩
    · by_cases hw : (40:Int) - 10 ≤ s ∧ ¬(issuesOf results).isEmpty
      · rw [if_pos hw]
        constructor
        · intro _
          exact ⟨by have := hw.1; omega, by have := hw.2; simpa [List.isEmpty_iff] using this⟩
        · intro _
          simp
      · rw [if_neg hw]
        constructor
        · intro hx
          exact absurd rfl hx
        · rintro ⟨h30, hiss⟩
          exact absurd ⟨by omega, by simpa [List.isEmpty_iff] using hiss⟩ hw
    · by_cases hw : (40:Int) - 10 ≤ s ∧ ¬(issuesOf results).isEmpty
      · rw [if_pos hw]
        intro a ha
        simp only [List.mem_singleton] at ha
        subst ha
        exact ⟨rfl, rfl⟩
      · rw [if_neg hw]
        intro a ha
        simp at ha
  · rw [if_neg hlt] at heq
    by_cases hm1 : cfg.mode = "report"
    · rw [if_pos hm1] at heq
      refine ⟨_, _, _, heq, rfl, fun hc => absurd hc hlt, fun _ => ?_⟩
      refine ⟨by simp [_handle_report_mode], fun _ => ⟨rfl, rfl⟩, ?_,
        fun hc _ => absurd hm1 hc⟩
      intro hc
      exact absurd (hm1.symm.trans hc) (by decide)
    · rw [if_neg hm1] at heq
      by_cases hm2 : cfg.mode = "auto"
      · rw [if_pos hm2] at heq
        unfold _handle_auto_mode at heq
        by_cases ha : _get_recommendation results ∈ cfg.auto_fix_types
        · rw [if_neg (not_not_intro ha)] at heq
          by_cases hb : cfg.max_auto_fixes ≤ fc
          · rw [if_pos hb] at heq
            refine ⟨_, _, _, heq, rfl, fun hc => absurd hc hlt, fun _ => ?_⟩
            exact ⟨by simp [_escalate_to_manual], fun hc => absurd hc hm1,
              fun _ => Or.inr rfl, fun _ hc => absurd hm2 hc⟩
          · rw [if_neg hb] at heq
            refine ⟨_, _, _, heq, rfl, fun hc => absurd hc hlt, fun _ => ?_⟩
            exact ⟨by simp, fun hc => absurd hc hm1, fun _ => Or.inl rfl,
              fun _ hc => absurd hm2 hc⟩
        · rw [if_pos ha] at heq
          refine ⟨_, _, _, heq, rfl, fun hc => absurd hc hlt, fun _ => ?_⟩
          exact ⟨by simp [_escalate_to_manual], fun hc => absurd hc hm1,
            fun _ => Or.inr rfl, fun _ hc => absurd hm2 hc⟩
      · rw [if_neg hm2] at heq
        unfold _handle_manual_mode at heq
        by_cases hs60 : (60:Int) ≤ s
        · simp only [hs60] at heq
          refine ⟨_, _, _, heq, rfl, fun hc => absurd hc hlt, fun _ => ?_⟩
          refine ⟨by simp, fun hc => absurd hc hm1, fun hc => absurd hc hm2, ?_⟩
          refine fun _ _ => Or.inl ⟨by simp, by simp, hs60⟩
        · simp only [hs60] at heq
          refine ⟨_, _, _, heq, rfl, fun hc => absurd hc hlt, fun _ => ?_⟩
          refine ⟨by simp, fun hc => absurd hc hm1, fun hc => absurd hc hm2, ?_⟩
          refine fun _ _ => Or.inr ⟨by simp, by simp, by omega⟩

/-- One concrete detection result used by the C4 instance. -/
def drC4 : DetectionResult :=
  { detector_name := "loop", detected := true, severity := 40,
    issues := ["loop detected"] }

/-- Concrete instantiation of `C4_threshold_boundary`: at severity exactly
40 in the default (manual) mode the action is "warning" — evaluated by the
mode, not "allowed". -/
theorem C4_threshold_boundary_witness :
    (analyze ({} : GuardianConfig) (.ok [drC4]) (fun _ => .ok 40) 0).map
      (fun x => x.1.action_taken) = .ok "warning" := by
  obtain ⟨r, audit, fc2, heq, hsev, hbelow, habove⟩ :=
    C4_threshold_boundary ({} : GuardianConfig) [drC4] 40 0 rfl rfl (by decide)
  have h := habove (by omega)
  rcases h.2.2.2 (by decide) (by decide) with ⟨ha, -, h60⟩ | ⟨ha, -, -⟩
  · exact absurd h60 (by omega)
  · rw [heq, Except.map, ha]

/-! ## C10 — row-to-event reconstruction defaults -/

/-- C10: `_row_to_span` always reconstructs `end_time = None` (even for a
row written from a span that had an end time), falls back to TOOL for a
kind string that is not a valid enum value, to OK for an invalid status
string, and consequently every span returned by `get_recent` has
`end_time = None`. -/
theorem C10_row_reconstruction (row : TraceRow) (st : TraceStorage)
    (limit : Nat) (sid : Option String) (sp : Span) :
    (_row_to_span row).end_time = none ∧
    (∀ span : Span, (_row_to_span (dbRowOf span)).end_time = none) ∧
    (spanKindOfValue row.kind = none → (_row_to_span row).kind = SpanKind.TOOL) ∧
    (spanStatusOfValue row.status = none → (_row_to_span row).status = SpanStatus.OK) ∧
    (sp ∈ get_recent st limit sid → sp.end_time = none) := by
  refine ⟨rfl, fun _ => rfl, ?_, ?_, ?_⟩
  · intro h
    unfold _row_to_span
    rw [h]
    rfl
  · intro h
    unfold _row_to_span
    rw [h]
    rfl
  · intro hmem
    unfold get_recent at hmem
    obtain ⟨row2, -, hEq⟩ := List.mem_map.mp hmem
    rw [← hEq]
    rfl

/-- A stored row whose kind/status strings are not valid enum values, and
whose source span had an end time. -/
def rowC10 : TraceRow :=
  { span_id := "s", trace_id := "t", parent_id := none, session_id := .str "t",
    timestamp := 5, hook_type := .str "pre", tool_name := .str "Bash",
    kind := "garbage", status := "weird", tool_input := none, tool_output := none,
    attributes := [], duration_ms := some 7, error := none, working_dir := .str "" }

/-- Concrete instantiation of `C10_row_reconstruction` on `rowC10`. -/
theorem C10_row_reconstruction_witness :
    (_row_to_span rowC10).end_time = none ∧
    (_row_to_span rowC10).kind = SpanKind.TOOL ∧
    (_row_to_span rowC10).status = SpanStatus.OK := by
  have h := C10_row_reconstruction rowC10 { jsonl := [], db := [] } 0 none spanDefault
  exact ⟨h.1, h.2.2.1 (by rfl), h.2.2.2.1 (by rfl)⟩

/-! ## C9 — the session_id column holds the correlation id -/

/-- C9: converter-produced spans never carry a `session_id` attribute, so
`_write_db` stores the span's trace (correlation) id in the `session_id`
column; hence a `get_recent` query filtered by a non-empty external session
identifier returns exactly the rows whose stored `session_id` — the
correlation id string — equals that identifier. -/
theorem C9_session_id_column (env : Env) (c : TraceConverter) (d : Dict)
    (ht : String) (now : Nat) (c2 : TraceConverter) (sp : Span)
    (st : TraceStorage) (limit : Nat) (s : String) :
    (to_span env c d ht now = (c2, .ok sp) →
      dget sp.attributes "session_id" = none ∧
      (dbRowOf sp).session_id = .str sp.trace_id) ∧
    (s ≠ "" → ∀ q ∈ get_recent st limit (some s),
      ∃ row ∈ st.db, q = _row_to_span row ∧ row.session_id = JValue.str s) := by
  constructor
  · intro h
    have hattr := (to_span_ok_fields env c d ht now c2 sp h).2.1
    have hnone : dget sp.attributes "session_id" = none := by
      rw [hattr]
      unfold attributesOf
      cases hcv : dget d "conversation_id" <;> cases hmv : dget d "model" <;>
        simp [dget_append, dget]
    refine ⟨hnone, ?_⟩
    unfold dbRowOf
    rw [hnone]
    rfl
  · intro hs q hq
    unfold get_recent at hq
    obtain ⟨row, hrow, hEq⟩ := List.mem_map.mp hq
    unfold selectRecentRows at hrow
    simp only at hrow
    rw [if_pos hs] at hrow
    have hrow2 := List.mem_reverse.mp (List.mem_of_mem_take hrow)
    have hf := List.mem_filter.mp hrow2
    refine ⟨row, hf.1, hEq.symm, ?_⟩
    have := hf.2
    simpa using this

/-- A stored row whose `session_id` column holds the external identifier. -/
def rowC9 : TraceRow :=
  { span_id := "s9", trace_id := "t9", parent_id := none, session_id := .str "ext",
    timestamp := 1, hook_type := .str "pre", tool_name := .str "Read",
    kind := "tool", status := "ok", tool_input := none, tool_output := none,
    attributes := [], duration_ms := none, error := none, working_dir := .str "" }

/-- One-row storage for the C9 instance. -/
def stC9 : TraceStorage := { jsonl := [], db := [rowC9] }

/-- Concrete instantiation of `C9_session_id_column`: a converter-produced
span has no session_id attribute and its database row records the
correlation id; the filtered query returns only matching-correlation rows. -/
theorem C9_session_id_column_witness :
    dget ((to_span env0 conv0 [("tool_name", JValue.str "Bash")] "pre" 0).2.toOption.getD
      spanDefault).attributes "session_id" = none ∧
    (dbRowOf ((to_span env0 conv0 [("tool_name", JValue.str "Bash")] "pre" 0).2.toOption.getD
      spanDefault)).session_id
      = .str ((to_span env0 conv0 [("tool_name", JValue.str "Bash")] "pre" 0).2.toOption.getD
        spanDefault).trace_id ∧
    (∃ row ∈ stC9.db, _row_to_span rowC9 = _row_to_span row ∧
      row.session_id = JValue.str "ext") := by
  have h := C9_session_id_column env0 conv0 [("tool_name", JValue.str "Bash")] "pre" 0
    (to_span env0 conv0 [("tool_name", JValue.str "Bash")] "pre" 0).1
    ((to_span env0 conv0 [("tool_name", JValue.str "Bash")] "pre" 0).2.toOption.getD spanDefault)
    stC9 1 "ext"
  have h1 := h.1 (by rfl)
  refine ⟨h1.1, h1.2, ?_⟩
  exact h.2 (by decide) (_row_to_span rowC9) (by decide)

/-! ## C2 — loop detection threshold

The specification-side notion: the longest run of consecutive identical
elements, defined as the maximum over all suffixes of the length of the
suffix's head run.  It is then proved equal to the `max_consecutive` scan
of `_fallback_detection`, and characterized by the existence of a
replicated infix. -/

/-- Longest run of consecutive identical elements of a list. -/
def longestRun [DecidableEq α] : List α → Nat
  | [] => 0
  | a :: l => max (1 + (l.takeWhile (fun b => decide (b = a))).length) (longestRun l)

theorem longestRun_cons [DecidableEq α] (a : α) (l : List α) :
    longestRun (a :: l)
      = max (1 + (l.takeWhile (fun b => decide (b = a))).length) (longestRun l) := rfl

theorem longestRun_le_length [DecidableEq α] (l : List α) : longestRun l ≤ l.length := by
  induction l with
  | nil => simp [longestRun]
  | cons a l ih =>
    simp only [longestRun, List.length_cons, max_le_iff]
    have ht : (l.takeWhile (fun b => decide (b = a))).length ≤ l.length :=
      List.Sublist.length_le (List.takeWhile_sublist _)
    omega

theorem longestRun_le_append [DecidableEq α] (s u : List α) :
    longestRun u ≤ longestRun (s ++ u) := by
  induction s with
  | nil => simp
  | cons a s ih =>
    exact le_trans ih (le_max_right _ _)

theorem takeWhile_replicate_append [DecidableEq α] (k : Nat) (a : α) (t : List α) :
    (List.replicate k a ++ t).takeWhile (fun b => decide (b = a)) =
      List.replicate k a ++ t.takeWhile (fun b => decide (b = a)) := by
  induction k with
  | zero => simp
  | succ n ih =>
    simp [List.replicate_succ, List.takeWhile_cons, ih]

theorem le_longestRun_replicate_append [DecidableEq α] (k : Nat) (a : α) (t : List α) :
    k ≤ longestRun (List.replicate k a ++ t) := by
  cases k with
  | zero => simp
  | succ n =>
    rw [List.replicate_succ, List.cons_append, longestRun_cons]
    refine le_trans ?_ (le_max_left _ _)
    rw [takeWhile_replicate_append]
    simp only [List.length_append, List.length_replicate]
    omega

theorem replicate_append_cons_self [DecidableEq α] (c : Nat) (a : α) (t : List α) :
    List.replicate c a ++ a :: t = List.replicate (c + 1) a ++ t := by
  simp [List.replicate_succ' c a, List.append_assoc]

theorem longestRun_replicate_append_cons [DecidableEq α] (c : Nat) (a x : α)
    (t : List α) (hx : x ≠ a) :
    longestRun (List.replicate c a ++ x :: t) = max c (longestRun (x :: t)) := by
  induction c with
  | zero => simp
  | succ n ih =>
    rw [List.replicate_succ, List.cons_append, longestRun_cons]
    rw [takeWhile_replicate_append]
    have ht : (x :: t).takeWhile (fun b => decide (b = a)) = [] := by
      simp [List.takeWhile_cons, hx]
    rw [ht, ih]
    simp only [List.append_nil, List.length_replicate]
    rw [← Nat.max_assoc, Nat.max_eq_left (by omega : n ≤ 1 + n),
      show 1 + n = n + 1 by omega]

theorem maxConsecutiveAux_eq_max [DecidableEq α] (xs : List α) :
    ∀ (prev : α) (cur mx : Nat), 1 ≤ cur → cur ≤ mx →
      maxConsecutiveAux prev cur mx xs
        = max mx (longestRun (List.replicate cur prev ++ xs)) := by
  induction xs with
  | nil =>
    intro prev cur mx h1 h2
    have hle : longestRun (List.replicate cur prev) ≤ cur := by
      simpa using longestRun_le_length (List.replicate cur prev)
    have hge : cur ≤ longestRun (List.replicate cur prev) := by
      simpa using le_longestRun_replicate_append cur prev []
    simp only [maxConsecutiveAux, List.append_nil]
    rw [le_antisymm hle hge]
    exact (Nat.max_eq_left h2).symm
  | cons x t ih =>
    intro prev cur mx h1 h2
    by_cases hx : x = prev
    · subst hx
      simp only [maxConsecutiveAux, if_pos rfl]
      rw [ih x (cur + 1) (max mx (cur + 1)) (by omega) (le_max_right _ _)]
      rw [replicate_append_cons_self]
      have hE : cur + 1 ≤ longestRun (List.replicate (cur + 1) x ++ t) :=
        le_longestRun_replicate_append _ _ _
      rw [Nat.max_assoc, Nat.max_eq_right hE]
      simp
    · simp only [maxConsecutiveAux, if_neg hx]
      rw [ih x 1 mx (le_refl 1) (le_trans h1 h2)]
      simp only [List.replicate_one, List.singleton_append]
      rw [longestRun_replicate_append_cons cur prev x t hx, ← Nat.max_assoc,
        Nat.max_eq_left h2]

theorem one_le_longestRun_cons [DecidableEq α] (x : α) (xs : List α) :
    1 ≤ longestRun (x :: xs) :=
  le_trans (by omega) (le_max_left _ _)

theorem max_consecutive_eq [DecidableEq α] (x : α) (xs : List α) :
    max_consecutive (x :: xs) = longestRun (x :: xs) := by
  show maxConsecutiveAux x 1 1 xs = longestRun (x :: xs)
  rw [maxConsecutiveAux_eq_max xs x 1 1 (le_refl 1) (le_refl 1)]
  simp only [List.replicate_one, List.singleton_append]
  exact Nat.max_eq_right (one_le_longestRun_cons x xs)

theorem longestRun_ge_iff [DecidableEq α] (k : Nat) (hk : 1 ≤ k) (l : List α) :
    k ≤ longestRun l ↔ ∃ a s t, l = s ++ List.replicate k a ++ t := by
  constructor
  · induction l with
    | nil =>
      intro h
      simp [longestRun] at h
      omega
    | cons a l ih =>
      intro h
      rcases le_max_iff.mp h with h1 | h2
      · set w := l.takeWhile (fun b => decide (b = a)) with hw
        have hwa : ∀ b ∈ w, b = a := fun b hb => by
          simpa using List.mem_takeWhile_imp hb
        have hwrep : w = List.replicate w.length a := List.eq_replicate_of_mem hwa
        have hdecomp : a :: l
            = List.replicate (w.length + 1) a ++ l.dropWhile (fun b => decide (b = a)) := by
          conv_lhs => rw [← List.takeWhile_append_dropWhile (fun b => decide (b = a)) l]
          rw [← hw]
          conv_lhs => rw [hwrep]
          simp [List.replicate_succ]
        have hsplit : List.replicate (w.length + 1) a
            = List.replicate k a ++ List.replicate (w.length + 1 - k) a := by
          rw [← List.replicate_add]
          congr 1
          omega
        refine ⟨a, [], List.replicate (w.length + 1 - k) a
          ++ l.dropWhile (fun b => decide (b = a)), ?_⟩
        rw [List.nil_append, hdecomp, hsplit, List.append_assoc]
      · obtain ⟨b, s, t, hst⟩ := ih h2
        exact ⟨b, a :: s, t, by rw [hst]; rfl⟩
  · rintro ⟨a, s, t, rfl⟩
    calc k ≤ longestRun (List.replicate k a ++ t) :=
          le_longestRun_replicate_append k a t
    _ ≤ longestRun (s ++ (List.replicate k a ++ t)) := longestRun_le_append s _
    _ = longestRun (s ++ List.replicate k a ++ t) := by rw [List.append_assoc]

/-- C2: the fallback loop detector fires exactly when the longest run of
consecutive identical tool names in the recent window is at least 5 (which
also forces the window length ≥ 5 guard to pass); "longest run ≥ 5" is
equivalent to containing five consecutive equal elements.  Concretely, a
window whose longest run is 4 exits 0 (allowed) and a window whose longest
run is 5 exits 1 (blocked). -/
theorem C2_loop_threshold :
    (∀ seq : List String, loopDetected seq = true ↔ 5 ≤ longestRun seq) ∧
    (∀ seq : List String,
      5 ≤ longestRun seq ↔ ∃ a s t, seq = s ++ List.replicate 5 a ++ t) ∧
    _fallback_detection [("tool_name", .str "Bash")]
      [.str "Bash", .str "Bash", .str "Bash", .str "Read", .str "Write"] = 0 ∧
    _fallback_detection [("tool_name", .str "Bash")]
      [.str "Bash", .str "Bash", .str "Bash", .str "Bash", .str "Read"] = 1 := by
  refine ⟨?_, fun seq => longestRun_ge_iff 5 (by omega) seq, by decide, by decide⟩
  intro seq
  unfold loopDetected
  rw [Bool.and_eq_true, decide_eq_true_eq, decide_eq_true_eq]
  constructor
  · rintro ⟨hlen, hmax⟩
    cases seq with
    | nil => simp at hlen
    | cons x xs => rwa [max_consecutive_eq] at hmax
  · intro h
    have hlen : 5 ≤ seq.length := le_trans h (longestRun_le_length seq)
    refine ⟨hlen, ?_⟩
    cases seq with
    | nil => simp at hlen
    | cons x xs => rwa [max_consecutive_eq]

/-- Concrete instantiation of `C2_loop_threshold`: five consecutive equal
names are detected. -/
theorem C2_loop_threshold_witness :
    loopDetected ["A", "A", "A", "A", "A"] = true :=
  (C2_loop_threshold.1 ["A", "A", "A", "A", "A"]).mpr (by decide)

/-! ## C8 — correlation-id determinism per session -/

/-- One normalization call: the raw hook data, the hook type argument, and
the call's wall-clock instant. -/
structure CallInput where
  hook_data : Dict
  hook_type : String
  now : Nat
  deriving DecidableEq

/-- A sequence of `to_span` calls on the same converter instance: returns
the successful calls paired with their spans, and the final converter
state.  A call that raises still keeps its state mutations (as the Python
object does). -/
def runCalls (env : Env) : TraceConverter → List CallInput → List (CallInput × Span) × TraceConverter
  | c, [] => ([], c)
  | c, i :: rest =>
    match to_span env c i.hook_data i.hook_type i.now with
    | (c2, .ok sp) => ((i, sp) :: (runCalls env c2 rest).1, (runCalls env c2 rest).2)
    | (c2, .error _) => runCalls env c2 rest

theorem runCalls_preserves (env : Env) (ins : List CallInput) :
    ∀ (c : TraceConverter) (s : PyScalar) (t : String),
      assocLookup c.session_traces s = some t →
      assocLookup (runCalls env c ins).2.session_traces s = some t := by
  induction ins with
  | nil => intro c s t h; exact h
  | cons i rest ih =>
    intro c s t h
    rcases hstep : to_span env c i.hook_data i.hook_type i.now with ⟨c2, r⟩
    have hpres := (to_span_state env c i.hook_data i.hook_type i.now c2 r hstep).1 s t h
    cases r with
    | ok sp =>
      simp only [runCalls, hstep]
      exact ih c2 s t hpres
    | error e =>
      simp only [runCalls, hstep]
      exact ih c2 s t hpres

theorem runCalls_invariant (env : Env) (ins : List CallInput) :
    ∀ (c : TraceConverter) (i : CallInput) (sp : Span),
      (i, sp) ∈ (runCalls env c ins).1 →
      ∀ s, sessionKeyOf env i.hook_data = some s →
      assocLookup (runCalls env c ins).2.session_traces s = some sp.trace_id := by
  induction ins with
  | nil => intro c i sp h; simp [runCalls] at h
  | cons j rest ih =>
    intro c i sp hmem s hs
    rcases hstep : to_span env c j.hook_data j.hook_type j.now with ⟨c2, r⟩
    cases r with
    | ok sp2 =>
      simp only [runCalls, hstep] at hmem ⊢
      rcases List.mem_cons.mp hmem with hhead | htail
      · have hij : i = j ∧ sp = sp2 := by
          simpa [Prod.ext_iff] using hhead
        obtain ⟨hi, hsp⟩ := hij
        subst hi
        subst hsp
        have hbind := (to_span_state env c i.hook_data i.hook_type i.now c2
          (.ok sp) hstep).2 sp rfl s hs
        exact runCalls_preserves env rest c2 s sp.trace_id hbind
      · exact ih c2 i sp htail s hs
    | error e =>
      simp only [runCalls, hstep] at hmem ⊢
      exact ih c2 i sp hmem s hs

theorem assocLookup_filter_ne (l : List (PyScalar × String)) (sid : PyScalar) :
    assocLookup (l.filter (fun p => p.1 ≠ sid)) sid = none ∧
    (∀ s2, s2 ≠ sid → assocLookup (l.filter (fun p => p.1 ≠ sid)) s2
      = assocLookup l s2) := by
  simp only [ne_eq, decide_not]
  induction l with
  | nil => exact ⟨rfl, fun _ _ => rfl⟩
  | cons p t ih =>
    obtain ⟨k, v⟩ := p
    by_cases hk : k = sid
    · subst hk
      constructor
      · simpa [List.filter_cons] using ih.1
      · intro s2 hs2
        have hks2 : ¬(k = s2) := fun h => hs2 h.symm
        simp [List.filter_cons, assocLookup, hks2, ih.2 s2 hs2]
    · constructor
      · simp [List.filter_cons, hk, assocLookup, ih.1]
      · intro s2 hs2
        by_cases hks : k = s2 <;>
          simp [List.filter_cons, hk, assocLookup, hks, hs2, ih.2 s2 hs2]

/-- C8: across any sequence of normalization calls on one converter
instance, every two produced spans whose raw events resolve to the same
session key carry the same correlation (trace) id; and `reset_session`
drops exactly the binding of the reset session, leaving every other
session's binding — and hence its correlation id — unchanged. -/
theorem C8_correlation_determinism (env : Env) (c c0 : TraceConverter)
    (ins : List CallInput) (i1 i2 : CallInput) (sp1 sp2 : Span)
    (s sid : PyScalar) :
    ((i1, sp1) ∈ (runCalls env c ins).1 → (i2, sp2) ∈ (runCalls env c ins).1 →
      sessionKeyOf env i1.hook_data = some s →
      sessionKeyOf env i2.hook_data = some s →
      sp1.trace_id = sp2.trace_id) ∧
    (assocLookup (reset_session c0 sid).session_traces sid = none) ∧
    (∀ s2, s2 ≠ sid → assocLookup (reset_session c0 sid).session_traces s2
      = assocLookup c0.session_traces s2) := by
  refine ⟨?_, ?_, ?_⟩
  · intro h1 h2 hk1 hk2
    have e1 := runCalls_invariant env ins c i1 sp1 h1 s hk1
    have e2 := runCalls_invariant env ins c i2 sp2 h2 s hk2
    rw [e1] at e2
    exact (Option.some.injEq _ _).mp e2
  · exact (assocLookup_filter_ne c0.session_traces sid).1
  · exact (assocLookup_filter_ne c0.session_traces sid).2

/-- Two calls of the same session for the C8 instance. -/
def insC8 : List CallInput :=
  [{ hook_data := [("session_id", .str "sessA"), ("tool_name", .str "Bash")],
     hook_type := "pre", now := 0 },
   { hook_data := [("session_id", .str "sessA"), ("tool_name", .str "Read")],
     hook_type := "post", now := 1 }]

/-- Placeholder call input used only to project concrete `runCalls`
results. -/
def ciDefault : CallInput := { hook_data := [], hook_type := "pre", now := 0 }

/-- Concrete instantiation of `C8_correlation_determinism`: the two spans
captured for session "sessA" share one trace id, and resetting "sessA"
clears its binding. -/
theorem C8_correlation_determinism_witness :
    (((runCalls env0 conv0 insC8).1.getD 0 (ciDefault, spanDefault)).2.trace_id
      = ((runCalls env0 conv0 insC8).1.getD 1 (ciDefault, spanDefault)).2.trace_id) ∧
    assocLookup (reset_session (runCalls env0 conv0 insC8).2 (.str "sessA")).session_traces
      (.str "sessA") = none := by
  have h := C8_correlation_determinism env0 conv0 (runCalls env0 conv0 insC8).2 insC8
    ((runCalls env0 conv0 insC8).1.getD 0 (ciDefault, spanDefault)).1
    ((runCalls env0 conv0 insC8).1.getD 1 (ciDefault, spanDefault)).1
    ((runCalls env0 conv0 insC8).1.getD 0 (ciDefault, spanDefault)).2
    ((runCalls env0 conv0 insC8).1.getD 1 (ciDefault, spanDefault)).2
    (.str "sessA") (.str "sessA")
  refine ⟨h.1 (by decide) (by decide) (by decide) (by decide), h.2.1⟩
